import Mathlib

/-!
Verification of the transition planning and filter-graph synthesis engine of
the video concatenation service (`services/v1/video/concatenate.py`).

The Python module is shallowly embedded: pure numeric code is translated to
functions over `ℚ` (Python floats are modelled by exact rationals), fallible
code returns `Except String` carrying the exact exception messages of the
source, and the ffmpeg stream objects are modelled by explicit syntax trees
(`VStream`, `AStream`) recording the filters the source applies.
-/

deriving instance DecidableEq for Except

namespace Concatenate

/-- The single-quote character, used in strings the source builds. -/
def squote : String := String.singleton (Char.ofNat 39)

/-- Python `str.lower()` on ASCII strings: lowercase every character. -/
def pyLower (s : String) : String := String.mk (s.data.map Char.toLower)

/-- Python string strict comparison `a < b`: lexicographic on code points,
a proper prefix is smaller. -/
def pyStrLtChars : List Char → List Char → Bool
  | [], [] => false
  | [], _ :: _ => true
  | _ :: _, [] => false
  | a :: as, b :: bs =>
    if a < b then true else if b < a then false else pyStrLtChars as bs

/-- Python `a <= b` on strings. -/
def pyStrLe (a b : String) : Bool := ! pyStrLtChars b.data a.data

/-- Insert a string into an already sorted list (ascending). -/
def insertSorted (x : String) : List String → List String
  | [] => [x]
  | y :: ys => if pyStrLe x y then x :: y :: ys else y :: insertSorted x ys

/-- Python `sorted` on a list of strings (ascending lexicographic order). -/
def pySorted : List String → List String
  | [] => []
  | x :: xs => insertSorted x (pySorted xs)

/-- Round half to even to an integer (Python `round` on an exact value). -/
def roundHalfEven (q : ℚ) : ℤ :=
  let f : ℤ := ⌊q⌋
  let frac := q - f
  if frac < 1/2 then f
  else if 1/2 < frac then f + 1
  else if f % 2 = 0 then f else f + 1

/-- Decimal digits of a natural number (fuel-structured so the kernel can
evaluate it; fuel `n` always suffices for `n`). -/
def natDigitsAux : ℕ → ℕ → List Char
  | 0, _ => []
  | _ + 1, 0 => []
  | fuel + 1, n => natDigitsAux fuel (n / 10) ++ [Char.ofNat (48 + n % 10)]

/-- Python `str` of a natural number. -/
def natToDigits (n : ℕ) : String :=
  if n = 0 then "0" else String.mk (natDigitsAux n n)

/-- Strip all trailing occurrences of a character (Python `str.rstrip`). -/
def rstripChar (s : String) (c : Char) : String :=
  String.mk ((s.data.reverse.dropWhile (fun d => d = c)).reverse)

/-- Source map `SUPPORTED_TRANSITION_TYPES`: an insertion-ordered map
from catalog key to the underlying xfade transition name (`none` maps to
Python `None`, modelled by `Option.none`). -/
def SUPPORTED_TRANSITION_TYPES : List (String × Option String) :=
  [("none", none),
   ("fade", some "fade"),
   ("fade_black", some "fadeblack"),
   ("wipe_left", some "wipeleft"),
   ("wipe_right", some "wiperight"),
   ("smooth_left", some "smoothleft"),
   ("smooth_right", some "smoothright"),
   ("whip_pan", some "slideleft"),
   ("circle_open", some "circleopen"),
   ("circle_close", some "circleclose"),
   ("pixelize", some "pixelize")]

/-- The catalog keys, in insertion order (Python `dict.keys()`). -/
def catalogKeys : List String := SUPPORTED_TRANSITION_TYPES.map Prod.fst

def DEFAULT_TRANSITION_TYPE : String := "none"

def DEFAULT_TRANSITION_DURATION : ℚ := 0.8

def MIN_TRANSITION_DURATION : ℚ := 0.2

def MAX_TRANSITION_DURATION : ℚ := 5.0

def AUDIO_SAMPLE_RATE : ℕ := 48000

/-- Message of the `ValueError` raised by `_effective_transition_duration`
(the spec calls this error `TransitionTooLong`). -/
def transitionTooLongMsg : String :=
  "Transition duration is longer than one of the clips."

/-- Message of the `ValueError` raised by `_build_transition_plan` on a
wrong-length explicit sequence (the spec calls this `LengthMismatch`). -/
def lengthMismatchMsg : String :=
  "transition_sequence must include one transition per clip boundary."

/-- Message of the `ValueError` raised by `_build_transition_plan` on a
sequence entry resolving to none (the spec calls this `InvalidSequenceEntry`). -/
def invalidSequenceEntryMsg : String :=
  "transition_sequence entries must specify an actual transition type."

/-- Message of the `ValueError` raised by `_concatenate_with_transitions`
when the transition plan holds the key "none". -/
def noneInPlanMsg : String :=
  "transition plan unexpectedly requested " ++ squote ++ "none" ++ squote ++ "."

/-- Function `_effective_transition_duration(requested, previous_tail, next_clip)`:
clamps the requested transition duration to what the two adjacent clip
lengths allow, with a 0.05 s safety margin and the 0.2 s floor, raising
`ValueError` when the clamped value still falls below the floor. -/
def _effective_transition_duration (requested previous_tail next_clip : ℚ) :
    Except String ℚ :=
  let max_allowed := min previous_tail next_clip
  let safe_cap := max (max_allowed - 0.05) MIN_TRANSITION_DURATION
  let effective := min requested safe_cap
  if effective < MIN_TRANSITION_DURATION then
    Except.error transitionTooLongMsg
  else
    Except.ok effective

/-- Function `_normalize_transition_duration(duration)`: the Python `float(duration)`
conversion always succeeds on a number (the embedding's domain is `ℚ`), and
the value is clamped into `[MIN_TRANSITION_DURATION, MAX_TRANSITION_DURATION]`. -/
def _normalize_transition_duration (duration : ℚ) : ℚ :=
  if duration < MIN_TRANSITION_DURATION then MIN_TRANSITION_DURATION
  else if duration > MAX_TRANSITION_DURATION then MAX_TRANSITION_DURATION
  else duration

/-- Python `str(x)` on the `requested_type` argument as interpolated by the
error f-string: `None` prints as `"None"`, a string prints as itself. -/
def pyShow (requested_type : Option String) : String :=
  match requested_type with
  | none => "None"
  | some s => s

/-- The error message of `_normalize_transition_type`, interpolating the raw
requested value and the sorted comma-joined catalog keys. -/
def unsupportedTransitionMsg (requested_type : Option String) : String :=
  "Unsupported transition_type " ++ squote ++ pyShow requested_type ++ squote ++
    ". Choose one of: " ++ String.intercalate ", " (pySorted catalogKeys) ++ "."

/-- Python truthiness substitution `requested_type or DEFAULT_TRANSITION_TYPE`:
`None` and the empty string are falsy and replaced by the default. -/
def orDefaultType (requested_type : Option String) : String :=
  match requested_type with
  | none => DEFAULT_TRANSITION_TYPE
  | some s => if s = "" then DEFAULT_TRANSITION_TYPE else s

/-- Function `_normalize_transition_type(requested_type)`: substitute the default for a
falsy value, lowercase, and validate membership in the catalog. -/
def _normalize_transition_type (requested_type : Option String) :
    Except String String :=
  let transition_key := pyLower (orDefaultType requested_type)
  if transition_key ∈ catalogKeys then
    Except.ok transition_key
  else
    Except.error (unsupportedTransitionMsg requested_type)

/-- Function `_build_transition_plan(clip_count, default_transition, transition_sequence)`.
Python `if not transition_sequence` treats both `None` and the empty list as
absent. Each explicit entry is normalized and must not resolve to "none". -/
def _build_transition_plan (clip_count : ℕ) (default_transition : String)
    (transition_sequence : Option (List String)) : Except String (List String) :=
  if clip_count ≤ 1 then
    Except.ok []
  else if transition_sequence = none ∨ transition_sequence = some [] then
    Except.ok (List.replicate (clip_count - 1) default_transition)
  else
    match transition_sequence with
    | none => Except.ok (List.replicate (clip_count - 1) default_transition)
    | some seq =>
      if seq.length ≠ clip_count - 1 then
        Except.error lengthMismatchMsg
      else
        seq.mapM (fun requested => do
          let key ← _normalize_transition_type (some requested)
          if key = "none" then
            Except.error invalidSequenceEntryMsg
          else
            pure key)

/-- Function `_should_apply_transitions(transition_plan)`. -/
def _should_apply_transitions (transition_plan : List String) : Bool :=
  transition_plan.any (fun key => key != "none")

/-- The invocation `_concatenate_with_concat_demuxer` builds: a concat list
file holding one quoted line per input (paths are modelled as already
absolute, so `os.path.abspath` is the identity), the demuxer input options
`format="concat", safe=0`, and the output options (pure stream copy). -/
structure DemuxerInvocation where
  concat_lines : List String
  format : String
  safe : ℕ
  output_path : String
  output_args : List (String × String)
deriving DecidableEq

/-- Function `_concatenate_with_concat_demuxer(input_files, output_path)`. -/
def _concatenate_with_concat_demuxer (input_files : List String)
    (output_path : String) : DemuxerInvocation :=
  { concat_lines := input_files.map (fun f => "file " ++ squote ++ f ++ squote),
    format := "concat",
    safe := 0,
    output_path := output_path,
    output_args := [("c", "copy")] }

/-- The dispatch in `process_video_concatenate`: either the concat demuxer
(no filter graph) or full filter-graph synthesis. -/
inductive ConcatMethod
  | demuxer (inv : DemuxerInvocation)
  | filterGraph
deriving DecidableEq

/-- Lines 95-105 of the source: apply transitions iff the plan asks for any. -/
def chooseConcatenation (input_files : List String) (output_path : String)
    (transition_plan : List String) : ConcatMethod :=
  if _should_apply_transitions transition_plan then
    ConcatMethod.filterGraph
  else
    ConcatMethod.demuxer (_concatenate_with_concat_demuxer input_files output_path)

/-- Video stream node syntax: the filters `_concatenate_with_transitions`
applies. The `split` filter duplicates a stream, so its two outputs are
modelled as the node itself. -/
inductive VStream
  | source (idx : ℕ)
  | xfade (leading trailing : VStream) (transition : String) (duration offset : ℚ)
  | gblur (v : VStream) (sigma : ℚ) (steps : ℕ) (sigmaV : ℚ)
  | blend (a b : VStream) (all_expr : String)
deriving DecidableEq

/-- Audio stream node syntax. `silence` stands for the
anullsrc→atrim→asetpts chain of `_build_silence_audio`; `sfxAsset` for
`ffmpeg.input(WHIP_PAN_SFX_PATH).audio`; `volume` records the gain in dB
(the engine argument is `10^(gain_db/20)`). -/
inductive AStream
  | source (idx : ℕ)
  | silence (duration : ℚ)
  | sfxAsset
  | atrim (a : AStream) (start duration : ℚ)
  | asetpts (a : AStream)
  | volume (a : AStream) (gain_db : ℚ)
  | adelay (a : AStream) (delay_ms : ℤ)
  | acrossfade (a b : AStream) (d : ℚ)
  | amix (a b : AStream)
deriving DecidableEq

/-- Function `_format_decimal(value)`: Python `format(value, ".6f")` (six decimals,
round half to even on the exact value) with trailing zeros and a trailing
dot stripped; an empty result becomes "0". -/
def _format_decimal (value : ℚ) : String :=
  let scaled := roundHalfEven (value * 1000000)
  let sign := if scaled < 0 then "-" else ""
  let n := scaled.natAbs
  let intDigits := natToDigits (n / 1000000)
  let fracRaw := natToDigits (n % 1000000)
  let fracDigits :=
    String.mk (List.replicate (6 - fracRaw.length) (Char.ofNat 48)) ++ fracRaw
  let formatted := sign ++ intDigits ++ "." ++ fracDigits
  let formatted := rstripChar formatted (Char.ofNat 48)
  let formatted := rstripChar formatted (Char.ofNat 46)
  if formatted = "" then "0" else formatted

/-- Function `_build_whip_pan_expression(offset, duration)`: the ffmpeg blend
expression string for the whip-pan motion-blur envelope. -/
def _build_whip_pan_expression (offset duration : ℚ) : String :=
  let offset_str := _format_decimal offset
  let duration_str := _format_decimal duration
  let end_str := _format_decimal (offset + duration)
  "if(between(T," ++ offset_str ++ "," ++ end_str ++ ")," ++
    "A+(B-A)*sin((T-" ++ offset_str ++ ")/" ++ duration_str ++ "*3.14159)," ++
    "A)"

/-- Denotation of the expression emitted by `_build_whip_pan_expression`,
under ffmpeg blend semantics: `T` is the frame time, `A` the first input
(sharp), `B` the second input (blurred), `between` is inclusive on both
ends, and `sin` is the engine's real sine (passed as a parameter so the
definition stays executable). The numeric literal in the string is
`3.14159 = 314159/100000`. -/
def whip_pan_blend_value {α : Type} [LinearOrderedField α] (sinf : α → α)
    (offset duration T A B : α) : α :=
  if offset ≤ T ∧ T ≤ offset + duration then
    A + (B - A) * sinf ((T - offset) / duration * (314159 / 100000))
  else A

/-- Function `_apply_whip_pan_transition(leading, trailing, transition_duration, offset)`:
slide-left xfade, split into a sharp and a heavily blurred copy, then blend
with the time-varying whip-pan envelope. -/
def _apply_whip_pan_transition (leading_video trailing_video : VStream)
    (transition_duration offset : ℚ) : VStream :=
  let base := VStream.xfade leading_video trailing_video "slideleft"
    transition_duration offset
  let sharp := base
  let blurred := VStream.gblur base 100 1 0
  let blend_expr := _build_whip_pan_expression offset transition_duration
  VStream.blend sharp blurred blend_expr

/-- Function `_build_whip_pan_sound_effect(offset, duration, gain_db)`. The
`os.path.exists(WHIP_PAN_SFX_PATH)` check is modelled by the explicit
`asset_exists` parameter; a missing asset yields `none`. -/
def _build_whip_pan_sound_effect (asset_exists : Bool)
    (offset duration gain_db : ℚ) : Option AStream :=
  if ! asset_exists then
    none
  else
    let effect := AStream.sfxAsset
    let trimmed := AStream.asetpts (AStream.atrim effect 0 duration)
    let trimmed := if gain_db ≠ 0 then AStream.volume trimmed gain_db else trimmed
    let delay_ms := max (roundHalfEven (offset * 1000)) 0
    if delay_ms > 0 then
      some (AStream.adelay trimmed delay_ms)
    else
      some trimmed

/-- Function `_apply_whip_pan_audio(leading, trailing, transition_duration, offset, gain_db)`:
plain audio cross-fade, plus an amix with the whoosh effect when the asset
exists. -/
def _apply_whip_pan_audio (asset_exists : Bool)
    (leading_audio trailing_audio : AStream)
    (transition_duration offset gain_db : ℚ) : AStream :=
  let base_audio := AStream.acrossfade leading_audio trailing_audio
    transition_duration
  match _build_whip_pan_sound_effect asset_exists offset transition_duration
      gain_db with
  | none => base_audio
  | some effect_stream => AStream.amix base_audio effect_stream

/-- A probed clip: its video node, audio node (silence when the source has
no audio) and duration, as assembled at the top of
`_concatenate_with_transitions`. -/
structure MediaStream where
  video : VStream
  audio : AStream
  duration : ℚ
deriving DecidableEq

/-- The fold state of `_concatenate_with_transitions`: the running composite
video/audio nodes, `cumulative_duration`, `trailing_clip_duration`, and the
collected SFX events `(stream, offset)`. -/
structure FoldState where
  video : VStream
  audio : AStream
  cumulative_duration : ℚ
  trailing_clip_duration : ℚ
  sfx_streams : List (AStream × ℚ)
deriving DecidableEq

/-- One iteration of the boundary loop (source lines 208-264). -/
def boundaryStep (asset_exists : Bool) (transition_sfx_track_id : Option ℕ)
    (transition_duration whip_pan_sfx_gain_db : ℚ)
    (st : FoldState) (next_stream : MediaStream) (transition_key : String) :
    Except String FoldState := do
  let effective_duration ← _effective_transition_duration transition_duration
    st.trailing_clip_duration next_stream.duration
  let offset := max (st.cumulative_duration - effective_duration) 0
  if transition_key = "whip_pan" then
    let video := _apply_whip_pan_transition st.video next_stream.video
      effective_duration offset
    match transition_sfx_track_id with
    | some _ =>
      let audio := AStream.acrossfade st.audio next_stream.audio
        effective_duration
      let sfx := match _build_whip_pan_sound_effect asset_exists offset
          effective_duration whip_pan_sfx_gain_db with
        | some s => st.sfx_streams ++ [(s, offset)]
        | none => st.sfx_streams
      pure ⟨video, audio,
        st.cumulative_duration + next_stream.duration - effective_duration,
        next_stream.duration, sfx⟩
    | none =>
      let audio := _apply_whip_pan_audio asset_exists st.audio
        next_stream.audio effective_duration offset whip_pan_sfx_gain_db
      pure ⟨video, audio,
        st.cumulative_duration + next_stream.duration - effective_duration,
        next_stream.duration, st.sfx_streams⟩
  else
    match SUPPORTED_TRANSITION_TYPES.lookup transition_key with
    | none => Except.error "KeyError"
    | some none => Except.error noneInPlanMsg
    | some (some transition_name) =>
      pure ⟨VStream.xfade st.video next_stream.video transition_name
          effective_duration offset,
        AStream.acrossfade st.audio next_stream.audio effective_duration,
        st.cumulative_duration + next_stream.duration - effective_duration,
        next_stream.duration, st.sfx_streams⟩

/-- The boundary loop over the remaining clips paired with plan entries
(`transition_plan[idx - 1]`; a plan shorter than the clip tail would be a
Python `IndexError`). -/
def concatFoldGo (asset_exists : Bool) (transition_sfx_track_id : Option ℕ)
    (transition_duration whip_pan_sfx_gain_db : ℚ) :
    FoldState → List MediaStream → List String → Except String FoldState
  | st, [], _ => Except.ok st
  | _, _ :: _, [] => Except.error "IndexError"
  | st, m :: ms, k :: ks => do
    let st' ← boundaryStep asset_exists transition_sfx_track_id
      transition_duration whip_pan_sfx_gain_db st m k
    concatFoldGo asset_exists transition_sfx_track_id transition_duration
      whip_pan_sfx_gain_db st' ms ks

/-- The graph-building portion of `_concatenate_with_transitions`: start from
clip 0's streams and fold the boundary loop over the remaining clips. -/
def _concatenate_with_transitions_fold (asset_exists : Bool)
    (transition_sfx_track_id : Option ℕ)
    (transition_duration whip_pan_sfx_gain_db : ℚ)
    (media_streams : List MediaStream) (transition_plan : List String) :
    Except String FoldState :=
  match media_streams with
  | [] => Except.error "IndexError"
  | m0 :: rest =>
    concatFoldGo asset_exists transition_sfx_track_id transition_duration
      whip_pan_sfx_gain_db
      ⟨m0.video, m0.audio, m0.duration, m0.duration, []⟩ rest transition_plan

/-- Python `re.sub(r'\[s(\d+)\]', lambda m: "[sfx" + m.group(1) + "]", s)` on the
character list: left-to-right non-overlapping replacement of labels
`[s<digits>]` by `[sfx<digits>]`. The first argument is fuel making the
recursion structural; every step consumes at least one character, so fuel
equal to the list length (as supplied by `renameSfxLabels`) never runs out. -/
def renameSfxAux : ℕ → List Char → List Char
  | 0, l => l
  | _ + 1, [] => []
  | fuel + 1, '[' :: 's' :: rest =>
    (match rest.takeWhile Char.isDigit, rest.dropWhile Char.isDigit with
     | ds@(_ :: _), ']' :: after =>
       '[' :: 's' :: 'f' :: 'x' :: (ds ++ ']' :: renameSfxAux fuel after)
     | _, _ => '[' :: renameSfxAux fuel ('s' :: rest))
  | fuel + 1, c :: rest => c :: renameSfxAux fuel rest

/-- String wrapper for `renameSfxAux`. -/
def renameSfxLabels (s : String) : String :=
  String.mk (renameSfxAux s.data.length s.data)

/-- Python `re.search(r'\[sfx\d+\]$', s)`: the matched suffix `[sfx<digits>]` of
the string, when present. -/
def finalSfxLabel (s : String) : Option String :=
  match s.data.reverse with
  | ']' :: rest =>
    let ds := rest.takeWhile Char.isDigit
    let tail := rest.dropWhile Char.isDigit
    match ds, tail with
    | [], _ => none
    | _ :: _, 'x' :: 'f' :: 's' :: '[' :: _ =>
      some ("[sfx" ++ String.mk ds.reverse ++ "]")
    | _, _ => none
  | _ => none

/-- Python `s.rstrip(";")`. -/
def rstripSemis (s : String) : String := rstripChar s (Char.ofNat 59)

/-- Python `re.findall(r'\[s\d+\]', s)`: all non-overlapping labels `[s<digits>]`
in scan order. Fuel-structured like `renameSfxAux`; callers pass the list
length as fuel, which never runs out. -/
def findMainLabels : ℕ → List Char → List String
  | 0, _ => []
  | _ + 1, [] => []
  | fuel + 1, '[' :: 's' :: rest =>
    (match rest.takeWhile Char.isDigit, rest.dropWhile Char.isDigit with
     | ds@(_ :: _), ']' :: after =>
       ("[s" ++ String.mk ds ++ "]") :: findMainLabels fuel after
     | _, _ => findMainLabels fuel ('s' :: rest))
  | fuel + 1, _ :: rest => findMainLabels fuel rest

/-- The first index holding `-filter_complex` in a compiled command
(source loop `for i, arg in enumerate(cmd): if arg == "-filter_complex"`). -/
def findFilterComplexIdx (cmd : List String) : Option ℕ :=
  cmd.findIdx? (fun arg => arg = "-filter_complex")

/-- Outcome of the SFX merge section (source lines 283-372): either the
rebuilt multi-track command executed via subprocess, or the fallback that
runs the original single-output command — without the separate SFX track. -/
inductive SfxMergeOutcome
  | multiTrack (cmd : List String)
  | fallbackSingleTrack
deriving DecidableEq

/-- The splice of the independently compiled SFX sub-graph into the main
command (source lines 283-372), given the two compiled token lists. When
`-filter_complex` is found in both, the SFX labels are renamed, its
terminal label is renamed to `[sfx]` (appending `[sfx]` when no terminal
label is found), the graphs are concatenated, and the three-output command
is rebuilt. When either search fails, control falls through to the
single-output fallback. -/
def mergeSfxCommand (cmd sfx_cmd : List String) (output_path : String) :
    SfxMergeOutcome :=
  match findFilterComplexIdx cmd with
  | none => SfxMergeOutcome.fallbackSingleTrack
  | some filter_idx =>
    match findFilterComplexIdx sfx_cmd with
    | none => SfxMergeOutcome.fallbackSingleTrack
    | some sfx_filter_idx =>
      let main_filter := cmd.getD (filter_idx + 1) ""
      let sfx_filter := sfx_cmd.getD (sfx_filter_idx + 1) ""
      let sfx_filter_renamed := renameSfxLabels sfx_filter
      let sfx_filter_renamed :=
        match finalSfxLabel sfx_filter_renamed with
        | some final_sfx_label =>
          sfx_filter_renamed.dropRight final_sfx_label.length ++ "[sfx]"
        | none => rstripSemis sfx_filter_renamed ++ "[sfx]"
      let combined_filter := main_filter ++ ";" ++ sfx_filter_renamed
      let inputs := (cmd.drop 1).take (filter_idx - 1)
      let main_labels := findMainLabels main_filter.data.length main_filter.data
      let labels :=
        if main_labels.length ≥ 2 then
          (main_labels.getD (main_labels.length - 2) "[s0]",
           main_labels.getD (main_labels.length - 1) "[s0]")
        else
          ("[s0]", if main_labels.length ≥ 1 then "[s1]" else "[s0]")
      SfxMergeOutcome.multiTrack
        (["ffmpeg", "-y"] ++ inputs ++
          ["-filter_complex", combined_filter] ++
          ["-map", labels.1, "-map", labels.2, "-map", "[sfx]"] ++
          ["-vcodec", "libx264", "-pix_fmt", "yuv420p",
           "-movflags", "faststart", "-c:a", "aac"] ++
          [output_path])

/-- The local path of downloaded input `i` of a job (the destination hint
`f"{job_id}_input_{i}"` passed to `download_file`; the storage directory
prefix is left implicit). -/
def downloadedInputs (media_count : ℕ) (job_id : String) : List String :=
  (List.range media_count).map
    (fun i => job_id ++ "_input_" ++ natToDigits i)

/-- Message of the `FileNotFoundError` raised when the output is missing
after combination (the path prefix is left implicit). -/
def outputMissingMsg (job_id : String) : String :=
  "Output file " ++ job_id ++ ".mp4 does not exist after combination."

/-- Result of a `process_video_concatenate` run plus the downloaded input
files still on disk when control returns to the caller. -/
structure JobOutcome where
  result : Except String String
  remaining_inputs : List String
deriving DecidableEq

/-- Control-flow model of `process_video_concatenate` (source lines 83-116)
after validation: every input is downloaded; the combination step either
raises (`concat_error = some msg` — probe failure, graph-synthesis error or
engine failure) or succeeds; the inputs are removed only after a successful
combination, then the output-existence check runs; the `except` clause
prints and re-raises without touching the disk. -/
def process_video_concatenate_model (media_count : ℕ) (job_id : String)
    (concat_error : Option String) (output_exists : Bool) : JobOutcome :=
  let input_files := downloadedInputs media_count job_id
  match concat_error with
  | some e => ⟨Except.error e, input_files⟩
  | none =>
    if output_exists then
      ⟨Except.ok (job_id ++ ".mp4"), []⟩
    else
      ⟨Except.error (outputMissingMsg job_id), []⟩

example : _effective_transition_duration 5 1 1 = Except.ok 0.95 := by
  norm_num [_effective_transition_duration, MIN_TRANSITION_DURATION,
    transitionTooLongMsg]

example : pyLower "FADE" = "fade" := by decide

example : _build_transition_plan 2 "none" (some []) = Except.ok ["none"] := by
  decide

example : String.intercalate ", " (pySorted catalogKeys) =
    "circle_close, circle_open, fade, fade_black, none, pixelize, " ++
      "smooth_left, smooth_right, whip_pan, wipe_left, wipe_right" := by
  decide

example : renameSfxLabels "[s0][s12]concat[s3]" = "[sfx0][sfx12]concat[sfx3]" := by
  decide

example : finalSfxLabel "[sfx0]aevalsrc[sfx12]" = some "[sfx12]" := by decide

example : finalSfxLabel "[sfx0]aevalsrc" = none := by decide

example : _format_decimal 0.95 = "0.95" := by
  have h : roundHalfEven (0.95 * 1000000) = 950000 := by
    norm_num [roundHalfEven]
  simp only [_format_decimal, h]
  decide

example : _format_decimal 0 = "0" := by
  have h : roundHalfEven (0 * 1000000) = 0 := by
    norm_num [roundHalfEven]
  simp only [_format_decimal, h]
  decide

example : _format_decimal 1.4 = "1.4" := by
  have h : roundHalfEven (1.4 * 1000000) = 1400000 := by
    norm_num [roundHalfEven]
  simp only [_format_decimal, h]
  decide

/-- Closed form of `_effective_transition_duration`: the safety cap keeps the
clamped value at or above the floor, so the error fires exactly when the
requested duration itself is below `MIN_TRANSITION_DURATION`. -/
theorem effective_transition_eq (requested previous_tail next_clip : ℚ) :
    _effective_transition_duration requested previous_tail next_clip =
      if requested < MIN_TRANSITION_DURATION then
        Except.error transitionTooLongMsg
      else
        Except.ok (min requested
          (max (min previous_tail next_clip - 0.05) MIN_TRANSITION_DURATION)) := by
  simp only [_effective_transition_duration]
  have hcap : MIN_TRANSITION_DURATION ≤
      max (min previous_tail next_clip - 0.05) MIN_TRANSITION_DURATION :=
    le_max_right _ _
  by_cases h : requested < MIN_TRANSITION_DURATION
  · rw [if_pos (lt_of_le_of_lt (min_le_left _ _) h), if_pos h]
  · rw [if_neg (not_lt.mpr (le_min (not_lt.mp h) hcap)), if_neg h]

/-- C1 counterexample: with a requested duration of 5.0 and both adjacent
clips 1.0 s long, `_effective_transition_duration` does not fail: it returns
the safety-clamped value 0.95. -/
theorem C1_counterexample :
    _effective_transition_duration 5 1 1 = Except.ok 0.95 ∧
    ∀ e, _effective_transition_duration 5 1 1 ≠ Except.error e := by
  have h : _effective_transition_duration 5 1 1 = Except.ok 0.95 := by
    norm_num [_effective_transition_duration, MIN_TRANSITION_DURATION]
  refine ⟨h, fun e he => ?_⟩
  rw [h] at he
  exact Except.noConfusion he

/-- C1 amended: for a requested transition duration of 5.0 with both adjacent
clips 1.0 s long, `_effective_transition_duration` succeeds with the
safety-clamped value 0.95; the `TransitionTooLong` error occurs exactly when
the requested duration is below `MIN_TRANSITION_DURATION`. -/
theorem C1_clamp_instead_of_error :
    _effective_transition_duration 5 1 1 = Except.ok 0.95 ∧
    ∀ requested previous_tail next_clip : ℚ,
      (∃ e, _effective_transition_duration requested previous_tail next_clip =
        Except.error e) ↔ requested < MIN_TRANSITION_DURATION := by
  constructor
  · norm_num [_effective_transition_duration, MIN_TRANSITION_DURATION]
  · intro requested previous_tail next_clip
    rw [effective_transition_eq]
    by_cases h : requested < MIN_TRANSITION_DURATION
    · simp [h]
    · simp [h]

/-- Witness for C1: the clamped 0.95 result, read off the amended theorem. -/
theorem C1_clamp_instead_of_error_witness :
    _effective_transition_duration 5 1 1 = Except.ok 0.95 :=
  (C1_clamp_instead_of_error).1

/-- C2 counterexample: `previousTail = nextClip = 0.2 > 0.1` and
`requested = 0.5 > 0`, yet the call neither fails nor returns a value that is
at most `min(previousTail, nextClip) - 0.05 = 0.15`: it returns 0.2. -/
theorem C2_counterexample :
    (0.1 < (0.2 : ℚ)) ∧ (0 < (0.5 : ℚ)) ∧
    _effective_transition_duration 0.5 0.2 0.2 = Except.ok 0.2 ∧
    ¬ ((0.2 : ℚ) ≤ min (0.2 : ℚ) 0.2 - 0.05) := by
  refine ⟨by norm_num, by norm_num, ?_, by norm_num⟩
  norm_num [_effective_transition_duration, MIN_TRANSITION_DURATION]

/-- C2 amended: for every `previousTail, nextClip > 0.1` and `requested > 0`,
`_effective_transition_duration` either fails `TransitionTooLong` or returns
a value between `MIN_TRANSITION_DURATION = 0.2` and the safety cap
`max(min(previousTail, nextClip) - 0.05, MIN_TRANSITION_DURATION)`. -/
theorem C2_result_bounded_by_safe_cap
    (requested previous_tail next_clip : ℚ)
    (hpt : 0.1 < previous_tail) (hnc : 0.1 < next_clip) (hr : 0 < requested) :
    (∃ e, _effective_transition_duration requested previous_tail next_clip =
      Except.error e) ∨
    ∃ v, _effective_transition_duration requested previous_tail next_clip =
        Except.ok v ∧
      MIN_TRANSITION_DURATION ≤ v ∧
      v ≤ max (min previous_tail next_clip - 0.05) MIN_TRANSITION_DURATION := by
  rw [effective_transition_eq]
  by_cases h : requested < MIN_TRANSITION_DURATION
  · exact Or.inl ⟨transitionTooLongMsg, by rw [if_pos h]⟩
  · refine Or.inr ⟨_, by rw [if_neg h], ?_, min_le_right _ _⟩
    exact le_min (not_lt.mp h) (le_max_right _ _)

/-- Witness for C2 at `requested = 0.5`, `previousTail = nextClip = 1`. -/
theorem C2_result_bounded_by_safe_cap_witness :
    (0.1 < (1 : ℚ)) ∧ (0 < (0.5 : ℚ)) ∧
    ((∃ e, _effective_transition_duration 0.5 1 1 = Except.error e) ∨
      ∃ v, _effective_transition_duration 0.5 1 1 = Except.ok v ∧
        MIN_TRANSITION_DURATION ≤ v ∧
        v ≤ max (min (1 : ℚ) 1 - 0.05) MIN_TRANSITION_DURATION) :=
  ⟨by norm_num, by norm_num,
    C2_result_bounded_by_safe_cap 0.5 1 1 (by norm_num) (by norm_num)
      (by norm_num)⟩

/-- C3: every value `_normalize_transition_duration` produces is at least
`MIN_TRANSITION_DURATION = 0.2`, and for any requested duration at least 0.2
and positive adjacent clip durations, `_effective_transition_duration` never
raises: it returns `min(requested, max(min(previousTail, nextClip) - 0.05, 0.2))`,
which is at least 0.2 — so the `TransitionTooLong` branch is unreachable from
`process_video_concatenate`, whose duration always went through
`_normalize_transition_duration`. -/
theorem C3_transition_too_long_unreachable
    (requested d previous_tail next_clip : ℚ)
    (hreq : MIN_TRANSITION_DURATION ≤ requested)
    (hpt : 0 < previous_tail) (hnc : 0 < next_clip) :
    MIN_TRANSITION_DURATION ≤ _normalize_transition_duration d ∧
    _effective_transition_duration requested previous_tail next_clip =
      Except.ok (min requested
        (max (min previous_tail next_clip - 0.05) MIN_TRANSITION_DURATION)) ∧
    MIN_TRANSITION_DURATION ≤ min requested
      (max (min previous_tail next_clip - 0.05) MIN_TRANSITION_DURATION) ∧
    ∃ v, _effective_transition_duration (_normalize_transition_duration d)
        previous_tail next_clip = Except.ok v ∧ MIN_TRANSITION_DURATION ≤ v := by
  have hnorm : MIN_TRANSITION_DURATION ≤ _normalize_transition_duration d := by
    simp only [_normalize_transition_duration]
    by_cases h1 : d < MIN_TRANSITION_DURATION
    · rw [if_pos h1]
    · rw [if_neg h1]
      by_cases h2 : d > MAX_TRANSITION_DURATION
      · rw [if_pos h2]
        norm_num [MIN_TRANSITION_DURATION, MAX_TRANSITION_DURATION]
      · rw [if_neg h2]
        exact not_lt.mp h1
  have hmain : ∀ r : ℚ, MIN_TRANSITION_DURATION ≤ r →
      _effective_transition_duration r previous_tail next_clip =
        Except.ok (min r
          (max (min previous_tail next_clip - 0.05) MIN_TRANSITION_DURATION)) ∧
      MIN_TRANSITION_DURATION ≤ min r
        (max (min previous_tail next_clip - 0.05) MIN_TRANSITION_DURATION) := by
    intro r hr
    constructor
    · rw [effective_transition_eq, if_neg (not_lt.mpr hr)]
    · exact le_min hr (le_max_right _ _)
  exact ⟨hnorm, (hmain requested hreq).1, (hmain requested hreq).2,
    ⟨_, (hmain _ hnorm).1, (hmain _ hnorm).2⟩⟩

/-- Witness for C3 at `requested = 0.8` (the default), `d = 0.8`,
`previousTail = nextClip = 2`. -/
theorem C3_transition_too_long_unreachable_witness :
    MIN_TRANSITION_DURATION ≤ (0.8 : ℚ) ∧ (0 < (2 : ℚ)) ∧
    _effective_transition_duration 0.8 2 2 =
      Except.ok (min (0.8 : ℚ)
        (max (min (2 : ℚ) 2 - 0.05) MIN_TRANSITION_DURATION)) :=
  ⟨by norm_num [MIN_TRANSITION_DURATION], by norm_num,
    (C3_transition_too_long_unreachable 0.8 0.8 2 2
      (by norm_num [MIN_TRANSITION_DURATION]) (by norm_num) (by norm_num)).2.1⟩

/-- C4 counterexample: one input is downloaded and the combination step
raises, yet the downloaded input is still on disk when the error propagates
to the caller — the source removes inputs only on the success path. -/
theorem C4_counterexample :
    (process_video_concatenate_model 1 "job" (some "ffmpeg failed") true
      ).remaining_inputs = ["job_input_0"] ∧
    (process_video_concatenate_model 1 "job" (some "ffmpeg failed") true
      ).result = Except.error "ffmpeg failed" ∧
    (process_video_concatenate_model 1 "job" (some "ffmpeg failed") true
      ).remaining_inputs ≠ [] := by
  refine ⟨by decide, by decide, by decide⟩

/-- C4 amended: when the execution phase of `process_video_concatenate`
raises after the inputs were downloaded, the error propagates unchanged and
every downloaded input file is still on disk; the inputs are deleted only on
the success path, before the output-existence check. -/
theorem C4_no_cleanup_on_failure (media_count : ℕ) (job_id msg : String)
    (output_exists : Bool) :
    (process_video_concatenate_model media_count job_id (some msg) output_exists
      ).result = Except.error msg ∧
    (process_video_concatenate_model media_count job_id (some msg) output_exists
      ).remaining_inputs = downloadedInputs media_count job_id ∧
    (process_video_concatenate_model media_count job_id none true
      ).remaining_inputs = [] ∧
    (process_video_concatenate_model media_count job_id none false
      ).remaining_inputs = [] := by
  refine ⟨rfl, rfl, rfl, rfl⟩

/-- Witness for C4 at one input and a failing combination step. -/
theorem C4_no_cleanup_on_failure_witness :
    (process_video_concatenate_model 1 "job" (some "boom") true
      ).remaining_inputs = downloadedInputs 1 "job" :=
  (C4_no_cleanup_on_failure 1 "job" "boom" true).2.1

/-- C5 counterexample: when the `-filter_complex` token is absent from the
compiled main command (first conjunct) or from the compiled SFX command
(second conjunct), the merge step does not abort: it falls through to the
single-output fallback, which writes the output file without the separate
SFX track. No `GraphMergeFailure`-style error is raised anywhere. -/
theorem C5_counterexample :
    mergeSfxCommand ["ffmpeg", "-i", "in0.mp4", "out.mp4"]
      ["ffmpeg", "-filter_complex", "anullsrc[sfx0]"] "out.mp4" =
      SfxMergeOutcome.fallbackSingleTrack ∧
    mergeSfxCommand
      ["ffmpeg", "-i", "in0.mp4", "-filter_complex", "xfade[s0]", "out.mp4"]
      ["ffmpeg", "-i", "whoosh.mp3"] "out.mp4" =
      SfxMergeOutcome.fallbackSingleTrack := by
  refine ⟨by decide, by decide⟩

/-- C5 amended: with a dedicated SFX track and collected SfxEvents, failure
to locate the `-filter_complex` section in either compiled sub-graph makes
`_concatenate_with_transitions` fall back silently to the single-output
command — writing the output without the separate SFX track instead of
aborting; when both sections are found, a multi-track command is always
emitted (a missing SFX terminal label merely appends `[sfx]`). -/
theorem C5_silent_fallback (cmd sfx_cmd : List String) (output_path : String) :
    (findFilterComplexIdx cmd = none →
      mergeSfxCommand cmd sfx_cmd output_path =
        SfxMergeOutcome.fallbackSingleTrack) ∧
    (findFilterComplexIdx sfx_cmd = none →
      mergeSfxCommand cmd sfx_cmd output_path =
        SfxMergeOutcome.fallbackSingleTrack) ∧
    (∀ i j, findFilterComplexIdx cmd = some i →
      findFilterComplexIdx sfx_cmd = some j →
      ∃ c, mergeSfxCommand cmd sfx_cmd output_path =
        SfxMergeOutcome.multiTrack c) := by
  refine ⟨?_, ?_, ?_⟩
  · intro h
    simp only [mergeSfxCommand, h]
  · intro h
    cases hc : findFilterComplexIdx cmd with
    | none => simp only [mergeSfxCommand, hc]
    | some i => simp only [mergeSfxCommand, hc, h]
  · intro i j hi hj
    simp only [mergeSfxCommand, hi, hj]
    exact ⟨_, rfl⟩

/-- Witness for C5 at commands without a `-filter_complex` token. -/
theorem C5_silent_fallback_witness :
    findFilterComplexIdx ["ffmpeg", "-y", "out.mp4"] = none ∧
    mergeSfxCommand ["ffmpeg", "-y", "out.mp4"] ["ffmpeg"] "out.mp4" =
      SfxMergeOutcome.fallbackSingleTrack :=
  ⟨by decide,
    (C5_silent_fallback ["ffmpeg", "-y", "out.mp4"] ["ffmpeg"] "out.mp4").1
      (by decide)⟩

/-- C6 counterexample: `clipCount = 2` and the explicitly supplied empty
sequence has wrong length (`0 ≠ 1`), yet `_build_transition_plan` does not
fail: Python `if not transition_sequence` treats the empty list as absent
and silently falls back to the uniform default plan. -/
theorem C6_counterexample :
    2 ≤ (2 : ℕ) ∧ ([] : List String).length ≠ 2 - 1 ∧
    _build_transition_plan 2 "none" (some []) = Except.ok ["none"] ∧
    ∀ e, _build_transition_plan 2 "none" (some []) ≠ Except.error e := by
  refine ⟨by decide, by decide, by decide, fun e he => ?_⟩
  have h : _build_transition_plan 2 "none" (some []) = Except.ok ["none"] := by
    decide
  rw [h] at he
  exact Except.noConfusion he

/-- C6 amended: for every `clipCount ≥ 2` and every non-empty explicit
`transition_sequence` whose length differs from `clipCount - 1`,
`_build_transition_plan` fails with the `LengthMismatch` error; the empty
sequence is instead treated as absent and yields the default plan. -/
theorem C6_nonempty_wrong_length_fails (clip_count : ℕ)
    (default_transition : String) (seq : List String)
    (h2 : 2 ≤ clip_count) (hne : seq ≠ [])
    (hlen : seq.length ≠ clip_count - 1) :
    _build_transition_plan clip_count default_transition (some seq) =
      Except.error lengthMismatchMsg := by
  have hn1 : ¬ clip_count ≤ 1 := by omega
  simp [_build_transition_plan, hn1, hne, hlen]

/-- Witness for C6 at `clipCount = 3`, sequence `["fade"]` of length 1 ≠ 2. -/
theorem C6_nonempty_wrong_length_fails_witness :
    2 ≤ (3 : ℕ) ∧ (["fade"] : List String) ≠ [] ∧
    (["fade"] : List String).length ≠ 3 - 1 ∧
    _build_transition_plan 3 "fade" (some ["fade"]) =
      Except.error lengthMismatchMsg :=
  ⟨by decide, by decide, by decide,
    C6_nonempty_wrong_length_fails 3 "fade" ["fade"] (by decide) (by decide)
      (by decide)⟩

/-- C8: graph synthesis happens iff some plan entry differs from "none"; a
plan whose entries are all "none" (the empty plan included) routes through
the concat demuxer with pure stream copy (`c="copy"`), building no filter
graph. -/
theorem C8_all_none_plan_stream_copies (input_files : List String)
    (output_path : String) (transition_plan : List String)
    (hall : ∀ k ∈ transition_plan, k = "none") :
    chooseConcatenation input_files output_path transition_plan =
      ConcatMethod.demuxer
        { concat_lines :=
            input_files.map (fun f => "file " ++ squote ++ f ++ squote),
          format := "concat",
          safe := 0,
          output_path := output_path,
          output_args := [("c", "copy")] } ∧
    ∀ plan : List String,
      (chooseConcatenation input_files output_path plan =
          ConcatMethod.filterGraph ↔ ∃ k ∈ plan, k ≠ "none") := by
  have hdispatch : ∀ plan : List String,
      _should_apply_transitions plan = true ↔ ∃ k ∈ plan, k ≠ "none" := by
    intro plan
    simp [_should_apply_transitions]
  constructor
  · have hfalse : ¬ _should_apply_transitions transition_plan = true := by
      rw [hdispatch]
      rintro ⟨k, hk, hne⟩
      exact hne (hall k hk)
    simp only [chooseConcatenation, if_neg hfalse,
      _concatenate_with_concat_demuxer]
  · intro plan
    by_cases h : _should_apply_transitions plan = true
    · simp only [chooseConcatenation, if_pos h]
      exact ⟨fun _ => (hdispatch plan).mp h, fun _ => trivial⟩
    · simp only [chooseConcatenation, if_neg h]
      exact ⟨fun hcontra => ConcatMethod.noConfusion hcontra,
        fun hex => absurd ((hdispatch plan).mpr hex) h⟩

/-- Witness for C8 at one input and the all-"none" plan `["none"]`. -/
theorem C8_all_none_plan_stream_copies_witness :
    (∀ k ∈ ["none"], k = "none") ∧
    chooseConcatenation ["in0.mp4"] "out.mp4" ["none"] =
      ConcatMethod.demuxer
        { concat_lines := ["file " ++ squote ++ "in0.mp4" ++ squote],
          format := "concat",
          safe := 0,
          output_path := "out.mp4",
          output_args := [("c", "copy")] } :=
  ⟨by decide,
    (C8_all_none_plan_stream_copies ["in0.mp4"] "out.mp4" ["none"]
      (by decide)).1⟩

set_option maxRecDepth 16384 in
/-- C10: `_normalize_transition_type` replaces `None` and the empty string
with "none", lowercases, accepts exactly the lowercased keys of the catalog
("FADE" becomes "fade", `None` becomes "none"), and rejects everything else
with an error listing the sorted catalog keys. -/
theorem C10_normalize_type_case_insensitive (requested_type : Option String) :
    _normalize_transition_type (some "FADE") = Except.ok "fade" ∧
    _normalize_transition_type none = Except.ok "none" ∧
    _normalize_transition_type (some "") = Except.ok "none" ∧
    (pyLower (orDefaultType requested_type) ∈ catalogKeys →
      _normalize_transition_type requested_type =
        Except.ok (pyLower (orDefaultType requested_type))) ∧
    (pyLower (orDefaultType requested_type) ∉ catalogKeys →
      _normalize_transition_type requested_type =
        Except.error (unsupportedTransitionMsg requested_type)) ∧
    unsupportedTransitionMsg (some "Zoom") =
      "Unsupported transition_type " ++ squote ++ "Zoom" ++ squote ++
        ". Choose one of: circle_close, circle_open, fade, fade_black, " ++
        "none, pixelize, smooth_left, smooth_right, whip_pan, wipe_left, " ++
        "wipe_right." := by
  refine ⟨by decide, by decide, by decide, ?_, ?_, by decide⟩
  · intro h
    simp only [_normalize_transition_type]
    rw [if_pos h]
  · intro h
    simp only [_normalize_transition_type]
    rw [if_neg h]

/-- Witness for C10 at the unsupported value "Zoom". -/
theorem C10_normalize_type_case_insensitive_witness :
    pyLower (orDefaultType (some "Zoom")) ∉ catalogKeys ∧
    _normalize_transition_type (some "Zoom") =
      Except.error (unsupportedTransitionMsg (some "Zoom")) :=
  ⟨by decide,
    (C10_normalize_type_case_insensitive (some "Zoom")).2.2.2.2.1 (by decide)⟩

/-- C9: when the whoosh asset file does not exist,
`_build_whip_pan_sound_effect` returns `none`, `_apply_whip_pan_audio`
returns the plain audio cross-fade unchanged, and the whip_pan boundary of
the graph fold still succeeds, producing the whip-pan video composite and
the plain cross-faded audio — no error is raised anywhere. -/
theorem C9_missing_asset_skipped_silently
    (offset duration gain_db : ℚ) (lead trail : AStream)
    (m1 m2 : MediaStream) (td : ℚ)
    (htd : MIN_TRANSITION_DURATION ≤ td) :
    _build_whip_pan_sound_effect false offset duration gain_db = none ∧
    _apply_whip_pan_audio false lead trail duration offset gain_db =
      AStream.acrossfade lead trail duration ∧
    _concatenate_with_transitions_fold false none td gain_db [m1, m2]
        ["whip_pan"] =
      Except.ok
        ⟨_apply_whip_pan_transition m1.video m2.video
            (min td (max (min m1.duration m2.duration - 0.05)
              MIN_TRANSITION_DURATION))
            (max (m1.duration -
              min td (max (min m1.duration m2.duration - 0.05)
                MIN_TRANSITION_DURATION)) 0),
          AStream.acrossfade m1.audio m2.audio
            (min td (max (min m1.duration m2.duration - 0.05)
              MIN_TRANSITION_DURATION)),
          m1.duration + m2.duration -
            min td (max (min m1.duration m2.duration - 0.05)
              MIN_TRANSITION_DURATION),
          m2.duration, []⟩ := by
  have hbuild : ∀ o d g : ℚ,
      _build_whip_pan_sound_effect false o d g = none := by
    intro o d g
    simp [_build_whip_pan_sound_effect]
  have happly : ∀ (l t : AStream) (d o g : ℚ),
      _apply_whip_pan_audio false l t d o g = AStream.acrossfade l t d := by
    intro l t d o g
    simp [_apply_whip_pan_audio, hbuild]
  have heff : _effective_transition_duration td m1.duration m2.duration =
      Except.ok (min td (max (min m1.duration m2.duration - 0.05)
        MIN_TRANSITION_DURATION)) := by
    rw [effective_transition_eq, if_neg (not_lt.mpr htd)]
  refine ⟨hbuild offset duration gain_db, happly lead trail duration offset
    gain_db, ?_⟩
  simp [_concatenate_with_transitions_fold, concatFoldGo, boundaryStep, heff,
    happly]
  rfl

/-- Witness for C9 at two 2-second clips and the default duration 0.8. -/
theorem C9_missing_asset_skipped_silently_witness :
    MIN_TRANSITION_DURATION ≤ (0.8 : ℚ) ∧
    _build_whip_pan_sound_effect false 1.2 0.8 (-3) = none ∧
    _apply_whip_pan_audio false (AStream.source 0) (AStream.source 1)
      0.8 1.2 (-3) =
      AStream.acrossfade (AStream.source 0) (AStream.source 1) 0.8 :=
  ⟨by norm_num [MIN_TRANSITION_DURATION],
    (C9_missing_asset_skipped_silently 1.2 0.8 (-3) (AStream.source 0)
      (AStream.source 1) ⟨VStream.source 0, AStream.source 0, 2⟩
      ⟨VStream.source 1, AStream.source 1, 2⟩ 0.8
      (by norm_num [MIN_TRANSITION_DURATION])).1,
    (C9_missing_asset_skipped_silently 1.2 0.8 (-3) (AStream.source 0)
      (AStream.source 1) ⟨VStream.source 0, AStream.source 0, 2⟩
      ⟨VStream.source 1, AStream.source 1, 2⟩ 0.8
      (by norm_num [MIN_TRANSITION_DURATION])).2.1⟩

/-- Value of `_format_decimal` at 0. -/
theorem format_decimal_zero : _format_decimal 0 = "0" := by
  have h : roundHalfEven (0 * 1000000) = 0 := by
    norm_num [roundHalfEven]
  simp only [_format_decimal, h]
  decide

/-- Value of `_format_decimal` at 1. -/
theorem format_decimal_one : _format_decimal 1 = "1" := by
  have h : roundHalfEven (1 * 1000000) = 1000000 := by
    norm_num [roundHalfEven]
  simp only [_format_decimal, h]
  decide

/-- The whip-pan ramp constant `3.14159` halved stays strictly below `π/2`,
so the sine of the midpoint argument is strictly below 1. -/
theorem sin_midpoint_arg_lt_one : Real.sin (314159 / 200000) < 1 := by
  have hpi := Real.pi_gt_d6
  have h1 : (314159 / 200000 : ℝ) < Real.pi / 2 := by
    norm_num at hpi ⊢
    linarith
  have hpipos := Real.pi_pos
  have h2 : Real.sin (314159 / 200000) < Real.sin (Real.pi / 2) := by
    apply Real.strictMonoOn_sin ⟨?_, le_of_lt h1⟩ ⟨?_, le_refl _⟩ h1
    · norm_num
      linarith
    · linarith
  rwa [Real.sin_pi_div_two] at h2

/-- The sine of the whip-pan midpoint argument exceeds 1/2, so the blurred
frame still dominates the sharp frame at the midpoint. -/
theorem half_lt_sin_midpoint_arg : 1 / 2 < Real.sin (314159 / 200000) := by
  have hpiup := Real.pi_lt_d2
  have hpidown := Real.pi_gt_d6
  have hpipos := Real.pi_pos
  have h1 : Real.pi / 6 < (314159 / 200000 : ℝ) := by
    norm_num at hpiup ⊢
    linarith
  have harghi : (314159 / 200000 : ℝ) ≤ Real.pi / 2 := by
    norm_num at hpidown ⊢
    linarith
  have h2 : Real.sin (Real.pi / 6) < Real.sin (314159 / 200000) := by
    apply Real.strictMonoOn_sin ⟨?_, ?_⟩ ⟨?_, harghi⟩ h1
    · linarith
    · linarith
    · norm_num
      linarith
  rwa [Real.sin_pi_div_six] at h2

/-- C7 counterexample: the expression emitted for `offset = 0`,
`duration = 1` hard-codes the rational constant `3.14159`, so at the
midpoint `T = 1/2` (with `A = 0`, `B = 1`) the blend value
`sin(3.14159/2)` differs from the claimed half-sine-ramp value
`sin((T-offset)/duration * π) = sin(π/2) = 1`. -/
theorem C7_counterexample :
    _build_whip_pan_expression 0 1 =
      "if(between(T,0,1),A+(B-A)*sin((T-0)/1*3.14159),A)" ∧
    whip_pan_blend_value Real.sin 0 1 (1 / 2) 0 1 ≠
      0 + ((1 : ℝ) - 0) * Real.sin ((((1 : ℝ) / 2) - 0) / 1 * Real.pi) := by
  constructor
  · have hadd : (0 : ℚ) + 1 = 1 := by norm_num
    simp only [_build_whip_pan_expression, hadd, format_decimal_zero,
      format_decimal_one]
    decide
  · have hval : whip_pan_blend_value Real.sin 0 1 (1 / 2) 0 1 =
        Real.sin (314159 / 200000) := by
      simp only [whip_pan_blend_value]
      rw [if_pos (by norm_num)]
      have harg : (((1 : ℝ) / 2) - 0) / 1 * (314159 / 100000) =
          314159 / 200000 := by norm_num
      rw [harg]
      ring
    have hclaim : 0 + ((1 : ℝ) - 0) *
        Real.sin ((((1 : ℝ) / 2) - 0) / 1 * Real.pi) = 1 := by
      have harg : (((1 : ℝ) / 2) - 0) / 1 * Real.pi = Real.pi / 2 := by ring
      rw [harg, Real.sin_pi_div_two]
      ring
    rw [hval, hclaim]
    exact ne_of_lt sin_midpoint_arg_lt_one

/-- C7 amended: the blend expression emitted by `_build_whip_pan_expression`
denotes the mix that equals `A` (fully sharp, weight 0) for `T` outside
`[offset, offset + duration]` and follows the half-sine ramp
`sin((T - offset)/duration * 3.14159)` inside — with the source's rational
constant `3.14159` in place of `π`. The blurred frame dominates at the
midpoint (weight above 1/2) and the left edge is exactly sharp. -/
theorem C7_blend_follows_ramp_with_rational_pi (offset duration : ℝ)
    (hoff : 0 ≤ offset) (hdur : 0 < duration) :
    (∀ T A B : ℝ, T < offset ∨ offset + duration < T →
      whip_pan_blend_value Real.sin offset duration T A B = A) ∧
    (∀ T A B : ℝ, offset ≤ T → T ≤ offset + duration →
      whip_pan_blend_value Real.sin offset duration T A B =
        A + (B - A) * Real.sin ((T - offset) / duration * (314159 / 100000))) ∧
    1 / 2 < Real.sin ((offset + duration / 2 - offset) / duration *
      (314159 / 100000)) ∧
    (∀ A B : ℝ, whip_pan_blend_value Real.sin offset duration offset A B = A) := by
  refine ⟨?_, ?_, ?_, ?_⟩
  · intro T A B h
    simp only [whip_pan_blend_value]
    rw [if_neg]
    rintro ⟨ha, hb⟩
    rcases h with h | h
    · linarith
    · linarith
  · intro T A B h1 h2
    simp only [whip_pan_blend_value]
    rw [if_pos ⟨h1, h2⟩]
  · have harg : (offset + duration / 2 - offset) / duration *
        (314159 / 100000 : ℝ) = 314159 / 200000 := by
      have hmid : offset + duration / 2 - offset = duration / 2 := by ring
      rw [hmid]
      have hdiv : duration / 2 / duration = 1 / 2 := by
        field_simp
        ring
      rw [hdiv]
      norm_num
    rw [harg]
    exact half_lt_sin_midpoint_arg
  · intro A B
    simp only [whip_pan_blend_value]
    rw [if_pos ⟨le_refl _, by linarith⟩]
    have harg : (offset - offset) / duration * (314159 / 100000 : ℝ) = 0 := by
      ring
    rw [harg, Real.sin_zero]
    ring

/-- Witness for C7 at `offset = 0`, `duration = 1`. -/
theorem C7_blend_follows_ramp_with_rational_pi_witness :
    (0 : ℝ) ≤ 0 ∧ (0 : ℝ) < 1 ∧
    whip_pan_blend_value Real.sin 0 1 2 5 7 = 5 ∧
    whip_pan_blend_value Real.sin 0 1 0 5 7 = 5 :=
  ⟨le_refl 0, one_pos,
    (C7_blend_follows_ramp_with_rational_pi 0 1 (le_refl 0) one_pos).1 2 5 7
      (Or.inr (by norm_num)),
    (C7_blend_follows_ramp_with_rational_pi 0 1 (le_refl 0) one_pos).2.2.2 5 7⟩

end Concatenate
